import Mathlib

/-!
Verification development for the email-sanitizer validation core: a shallow
embedding of the syntax validator (src/validation/syntax.rs), the DNS resolver
wrapper (src/validation/dnsmx.rs), the single-email and bulk validation
pipelines (src/routes/email.rs), the GraphQL pipeline with its whole-response
cache (src/graphql/email.rs), the job queue (src/job_queue.rs) and the worker
(src/worker.rs). Strings are modelled as lists of characters; byte-based
length checks of the Rust code use the UTF-8 byte size of each character.
External collaborators (DNS resolver, document store, Redis) are modelled as
explicit oracles and explicit state, and each effectful collaborator call is
recorded in a trace.
-/

set_option maxRecDepth 8000

namespace EmailSanitizer

/-- Model of Rust `str::len`: the UTF-8 byte length of the string, here
represented as a list of characters. -/
def byteLen (l : List Char) : Nat := (l.map Char.utf8Size).sum

/-- Model of Rust `str::split(sep)` for a one-character separator, as used by
`is_valid_dot_atom` and `is_valid_domain_name` (`split('.')`) and by the
pipeline's domain extraction (`email.split('@')`): the pieces between
separators, where the empty string yields one empty piece. -/
def rsSplit (sep : Char) : List Char → List (List Char)
  | [] => [[]]
  | c :: cs =>
    if c = sep then [] :: rsSplit sep cs
    else
      match rsSplit sep cs with
      | [] => [[c]]
      | p :: ps => (c :: p) :: ps

/-- Model of Rust `str::trim`: drop whitespace from both ends. -/
def rustTrim (l : List Char) : List Char :=
  ((l.dropWhile Char.isWhitespace).reverse.dropWhile Char.isWhitespace).reverse

/-- The scan at the top of `is_valid_email` (src/validation/syntax.rs lines
31-50): walk the string left to right tracking quoted-string and
backslash-escape state and split at the first unquoted `@`, returning the part
before it and the part after it; `none` models "no unquoted `@` found". -/
def findAtSplit : List Char → Bool → Bool → Option (List Char × List Char)
  | [], _, _ => none
  | c :: cs, inQuotes, escape =>
    if c == '"' && !escape then
      (findAtSplit cs (!inQuotes) escape).map (fun p => (c :: p.1, p.2))
    else if c == '\\' && inQuotes then
      (findAtSplit cs inQuotes true).map (fun p => (c :: p.1, p.2))
    else if c == '@' && !inQuotes then
      some ([], cs)
    else
      (findAtSplit cs inQuotes false).map (fun p => (c :: p.1, p.2))

/-- The loop of `is_valid_quoted_string` over the content between the
surrounding quotes (syntax.rs lines 100-114): an escape may only precede `\`
or `"`, an unescaped `"` is invalid, and a dangling final escape is invalid. -/
def quotedContentOk : List Char → Bool → Bool
  | [], escape => !escape
  | c :: cs, escape =>
    if escape then
      if c == '\\' || c == '"' then quotedContentOk cs false else false
    else if c == '\\' then
      quotedContentOk cs true
    else if c == '"' then
      false
    else
      quotedContentOk cs false

/-- Model of `is_valid_quoted_string` (syntax.rs lines 98-115). The Rust code
slices `quoted[1 .. quoted.len() - 1]`; when the argument has fewer than two
characters that slice is out of bounds and the Rust code would panic, which is
modelled by `none`. -/
def is_valid_quoted_string (quoted : List Char) : Option Bool :=
  if 2 ≤ quoted.length then
    some (quotedContentOk ((quoted.drop 1).dropLast) false)
  else
    none

/-- The extended ASCII symbol set allowed in dot-atom local parts, the string
literal of syntax.rs line 130 (apostrophe, backtick and the braces are written
via their code points). -/
def localSymbolChars : List Char :=
  ['!', '#', '$', '%', '&', Char.ofNat 39, '*', '+', '/', '=', '?', '^', '_',
   Char.ofNat 96, Char.ofNat 123, '|', Char.ofNat 125, '~']

/-- Model of `is_valid_dot_atom` (syntax.rs lines 120-133), parameterised by
`alnum`, the oracle for the standard library's Unicode `char::is_alphanumeric`
(on ASCII input it coincides with `Char.isAlphanum`, used for the concrete
evaluations below). -/
def is_valid_dot_atom (alnum : Char → Bool) (s : List Char) (isDomain : Bool) : Bool :=
  let parts := rsSplit '.' s
  if parts.isEmpty || parts.any (fun p => p.isEmpty) then false
  else
    parts.all (fun part =>
      part.all (fun c =>
        if c == '-' then
          !isDomain || (!(part.head? == some '-') && !(part.getLast? == some '-'))
        else if isDomain then
          alnum c || c == '-'
        else
          alnum c || localSymbolChars.contains c))

/-- Model of `is_valid_local_part` (syntax.rs lines 72-80); the `none` of the
quoted-string check propagates the possible slice panic. -/
def is_valid_local_part (alnum : Char → Bool) (lp : List Char) : Option Bool :=
  if lp.head? == some '"' && lp.getLast? == some '"' then
    is_valid_quoted_string lp
  else
    some (is_valid_dot_atom alnum lp false)

/-- Model of `is_valid_domain_name` (syntax.rs lines 145-154): dot-separated
labels, each at most 63 bytes, no leading or trailing hyphen, each a valid
domain dot-atom. -/
def is_valid_domain_name (alnum : Char → Bool) (domain : List Char) : Bool :=
  let labels := rsSplit '.' domain
  !labels.isEmpty &&
    labels.all (fun label =>
      byteLen label ≤ 63 &&
      !(label.head? == some '-') &&
      !(label.getLast? == some '-') &&
      is_valid_dot_atom alnum label true)

/-- Model of `is_valid_domain_part` (syntax.rs lines 85-93): a bracketed
domain literal is delegated to `ipLit`, the oracle for the standard library's
IP-address parsing of `is_valid_domain_literal` (a total pure function);
otherwise the domain-name rules apply. Rust's `strip_prefix('[')` followed by
`strip_suffix(']')` succeeds exactly when the string has length at least two,
starts with `[` and ends with `]`. -/
def is_valid_domain_part (alnum : Char → Bool) (ipLit : List Char → Bool)
    (domain : List Char) : Bool :=
  if 2 ≤ domain.length && domain.head? == some '[' && domain.getLast? == some ']' then
    ipLit ((domain.drop 1).dropLast)
  else
    is_valid_domain_name alnum domain

/-- Model of `is_valid_email` (syntax.rs lines 24-67) with the possible
quoted-string slice panic made explicit: `some b` is the Rust return value,
`none` marks the panicking slice (shown unreachable by the totality theorem
below). -/
def is_valid_emailOpt (alnum : Char → Bool) (ipLit : List Char → Bool)
    (email : List Char) : Option Bool :=
  if 254 < byteLen email then some false
  else
    match findAtSplit email false false with
    | none => some false
    | some (localPart, domainPart) =>
      if 64 < byteLen localPart then some false
      else
        match is_valid_local_part alnum localPart with
        | none => none
        | some ok =>
          if !ok then some false
          else some (is_valid_domain_part alnum ipLit domainPart)

/-- The total boolean version of `is_valid_email`, the form in which the
pipelines call it; it agrees with `is_valid_emailOpt` everywhere because the
panic branch is unreachable. -/
def is_valid_email (alnum : Char → Bool) (ipLit : List Char → Bool)
    (email : List Char) : Bool :=
  (is_valid_emailOpt alnum ipLit email).getD false

/-- Validation error payload of the pipeline responses
(src/routes/email.rs lines 22-25). -/
structure EmailValidationError where
  code : String
  message : String
  deriving DecidableEq

/-- Response shape of the validation pipelines
(src/routes/email.rs lines 28-32). -/
structure EmailValidationResponse where
  is_valid : Bool
  status : Option String
  error : Option EmailValidationError
  deriving DecidableEq

/-- The `INVALID_SYNTAX` response (src/routes/email.rs lines 262-269). -/
def syntaxErrorResp : EmailValidationResponse :=
  ⟨false, none, some ⟨"INVALID_SYNTAX", "Email address has invalid syntax"⟩⟩

/-- The `INVALID_DOMAIN` response (src/routes/email.rs lines 292-299). -/
def domainErrorResp : EmailValidationResponse :=
  ⟨false, none, some ⟨"INVALID_DOMAIN", "Email domain has no valid DNS records"⟩⟩

/-- The `ROLE_BASED_EMAIL` response (src/routes/email.rs lines 306-313). -/
def roleErrorResp : EmailValidationResponse :=
  ⟨false, none, some ⟨"ROLE_BASED_EMAIL", "Email address uses a role-based local part"⟩⟩

/-- The `DISPOSABLE_EMAIL` response (src/routes/email.rs lines 331-339). -/
def disposableErrorResp : EmailValidationResponse :=
  ⟨false, none,
   some ⟨"DISPOSABLE_EMAIL",
         "The email address domain is a provider of disposable email addresses"⟩⟩

/-- The `DATABASE_ERROR` response carrying the lookup's error message
(src/routes/email.rs lines 316-325 and 345-352). -/
def dbErrorResp (m : String) : EmailValidationResponse :=
  ⟨false, none, some ⟨"DATABASE_ERROR", m⟩⟩

/-- The `VALID` response (src/routes/email.rs lines 340-344). -/
def validResp : EmailValidationResponse :=
  ⟨true, some ("VALID"), none⟩

/-- Trace events recording the effectful collaborator calls a pipeline run
makes, in order: a blocking DNS resolution, a role-based-alias lookup, a
disposable-domain lookup. -/
inductive CallEvent where
  | dnsResolve (email : List Char)
  | roleLookup (email : List Char)
  | disposableLookup (email : List Char)
  deriving DecidableEq

/-- Whether a trace event is a DNS resolver invocation. -/
def isDnsResolveEvent : CallEvent → Bool
  | CallEvent.dnsResolve _ => true
  | _ => false

/-- Whether a trace event is a role-based-alias lookup. -/
def isRoleLookupEvent : CallEvent → Bool
  | CallEvent.roleLookup _ => true
  | _ => false

/-- The pipeline's external collaborators, as deterministic functions of the
full email string exactly as at the call sites: the blocking DNS resolution
(`dnsmx::validate_email_dns`), the role-based lookup
(`role_based::is_role_based_email`, which can fail with an error message) and
the disposable lookup (`disposable::is_disposable_email`, ditto, its boxed
error modelled by its rendered message). -/
structure Oracle where
  dnsLookup : List Char → Bool
  roleBased : List Char → Except String Bool
  disposable : List Char → Except String Bool

/-- The shared Redis store as the core sees it: the DNS-verdict namespace
(`dns_mx::<domain>`, written through `RedisCache`,
src/routes/email.rs lines 54-117) and the whole-response namespace
(`email:validation:<email>`, written only by the GraphQL resolver,
src/graphql/email.rs lines 99-127). -/
structure RedisState where
  dnsCache : List Char → Option Bool
  respCache : List Char → Option EmailValidationResponse

/-- The DNS stage of `validate_single_email` (src/routes/email.rs lines
277-289): serve the verdict from the `dns_mx::` cache when present, otherwise
invoke the blocking resolver and store the fresh verdict (the cache write is
best-effort in the source; the store is modelled as available). Returns the
verdict, the Redis state after the stage, and the trace of resolver calls. -/
def dnsStage (o : Oracle) (st : RedisState) (email domain : List Char) :
    Bool × RedisState × List CallEvent :=
  match st.dnsCache domain with
  | some cached => (cached, st, [])
  | none =>
    let dns_result := o.dnsLookup email
    (dns_result,
     { st with dnsCache := fun k => if k = domain then some dns_result else st.dnsCache k },
     [CallEvent.dnsResolve email])

/-- The disposable-domain check tail of the pipelines (src/routes/email.rs
lines 330-353): `Ok(true)` is the disposable rejection, `Ok(false)` the valid
outcome, an error the database-error outcome. -/
def disposableCheck (o : Oracle) (email : List Char) : EmailValidationResponse :=
  match o.disposable email with
  | Except.ok true => disposableErrorResp
  | Except.ok false => validResp
  | Except.error e => dbErrorResp e

/-- The optional role-based stage followed by the disposable stage
(src/routes/email.rs lines 302-353), with the trace of the lookups it
performs. When `check_role_based` is false the role-based collaborator is not
consulted at all. -/
def roleAndDisposableStage (o : Oracle) (email : List Char) (check_role_based : Bool) :
    EmailValidationResponse × List CallEvent :=
  if check_role_based then
    match o.roleBased email with
    | Except.ok true => (roleErrorResp, [CallEvent.roleLookup email])
    | Except.ok false =>
      (disposableCheck o email,
       [CallEvent.roleLookup email, CallEvent.disposableLookup email])
    | Except.error e => (dbErrorResp e, [CallEvent.roleLookup email])
  else
    (disposableCheck o email, [CallEvent.disposableLookup email])

/-- Model of `validate_single_email` (src/routes/email.rs lines 253-354): trim
the input, syntax check, extract the domain as `email.split('@')` piece 1,
DNS verdict through the cache, optional role-based check, disposable check,
each stage terminal on failure. Returns the response, the Redis state after
the call and the trace of collaborator calls. The source's `web::block` join
failure (`Err(_) => false`) is a scheduler artifact outside this model, and
the concrete `Char.isAlphanum` / IP-literal parameters of the syntax check
are abstracted as in `is_valid_email`. -/
def validate_single_email (alnum : Char → Bool) (ipLit : List Char → Bool)
    (o : Oracle) (st : RedisState) (email0 : List Char) (check_role_based : Bool) :
    EmailValidationResponse × RedisState × List CallEvent :=
  let email := rustTrim email0
  if is_valid_email alnum ipLit email = false then
    (syntaxErrorResp, st, [])
  else
    let domain := ((rsSplit '@' email)[1]?).getD []
    let d := dnsStage o st email domain
    if d.1 = false then
      (domainErrorResp, d.2.1, d.2.2)
    else
      let tail := roleAndDisposableStage o email check_role_based
      (tail.1, d.2.1, d.2.2 ++ tail.2)

/-- Model of the GraphQL `EmailQuery::perform_validation`
(src/graphql/email.rs lines 223-310): the same stage order as the REST
pipeline, but the resolver is invoked directly with no DNS-verdict cache. -/
def perform_validation (alnum : Char → Bool) (ipLit : List Char → Bool)
    (o : Oracle) (email : List Char) (check_role_based : Bool) :
    EmailValidationResponse :=
  if is_valid_email alnum ipLit email = false then syntaxErrorResp
  else if o.dnsLookup email = false then domainErrorResp
  else (roleAndDisposableStage o email check_role_based).1

/-- The GraphQL cache-write condition (src/graphql/email.rs lines 151-157):
cache when the outcome is valid or its error code is not `DATABASE_ERROR`. -/
def shouldCacheOutcome (r : EmailValidationResponse) : Bool :=
  r.is_valid ||
    (match r.error with
     | some e => e.code != "DATABASE_ERROR"
     | none => false)

/-- Model of the GraphQL `validate_email` resolver (src/graphql/email.rs lines
132-162): trim, whole-response cache lookup (a hit short-circuits regardless
of `check_role_based`), validation, authoritative-only cache write keyed by
the trimmed email. -/
def gql_validate_email (alnum : Char → Bool) (ipLit : List Char → Bool)
    (o : Oracle) (st : RedisState) (email0 : List Char)
    (check_role_based : Option Bool) :
    EmailValidationResponse × RedisState :=
  let email := rustTrim email0
  match st.respCache email with
  | some cached => (cached, st)
  | none =>
    let r := perform_validation alnum ipLit o email (check_role_based.getD false)
    if shouldCacheOutcome r then
      (r, { st with respCache := fun k => if k = email then some r else st.respCache k })
    else
      (r, st)

/-- DNS lookup oracles of one resolver, per domain: the outcome of
`mx_lookup`, of `lookup(_, RecordType::A)` and of
`lookup(_, RecordType::AAAA)`; records are abstract tokens, errors carry a
message. -/
structure DnsOracle where
  mx : List Char → Except String (List Unit)
  aRec : List Char → Except String (List Unit)
  aaaaRec : List Char → Except String (List Unit)

/-- Model of `check_mx_or_a_records` (src/validation/dnsmx.rs lines 74-86): a
successful MX lookup short-circuits with "at least one record present"; only
an MX lookup error falls back to the A and then the AAAA lookup, each of which
propagates its own error via `?`. -/
def check_mx_or_a_records (o : DnsOracle) (domain : List Char) : Except String Bool :=
  match o.mx domain with
  | Except.ok records => Except.ok (!records.isEmpty)
  | Except.error _ =>
    match o.aRec domain with
    | Except.error e => Except.error e
    | Except.ok a_records =>
      match o.aaaaRec domain with
      | Except.error e => Except.error e
      | Except.ok aaaa_records => Except.ok (!a_records.isEmpty || !aaaa_records.isEmpty)

/-- Model of Rust `str::rsplit_once('@')`: split at the last `@`, returning
the parts before and after it. -/
def rsplitOnceAt : List Char → Option (List Char × List Char)
  | [] => none
  | c :: cs =>
    match rsplitOnceAt cs with
    | some p => some (c :: p.1, p.2)
    | none => if c = '@' then some ([], cs) else none

/-- Model of `validate_email_dns` (src/validation/dnsmx.rs lines 32-44): the
domain is the part after the last `@` (no `@` means false), `resolverOk`
models whether `create_resolver` succeeded, and any error from the record
checks is collapsed to false by `unwrap_or(false)`. -/
def validate_email_dns (o : DnsOracle) (resolverOk : Bool) (email : List Char) : Bool :=
  match rsplitOnceAt email with
  | none => false
  | some p =>
    if resolverOk then
      match check_mx_or_a_records o p.2 with
      | Except.ok b => b
      | Except.error _ => false
    else false

/-- Whether a lookup outcome returned at least one record (an erroring lookup
returns none). Used to state the claimed fallback verdict. -/
def isOkNonempty (r : Except String (List Unit)) : Bool :=
  match r with
  | Except.ok l => !l.isEmpty
  | Except.error _ => false

/-- The domain-resolution verdict as the specification words it (spec section
4.2): valid when the MX lookup returns at least one record; otherwise — when
the MX lookup errors or returns an empty record set — fall back to the A and
AAAA lookups, and valid exactly when at least one of them returns at least one
record. This definition follows the specification text, not the source; it is
stated for comparison with `check_mx_or_a_records`. -/
def claimedDnsVerdict (o : DnsOracle) (domain : List Char) : Bool :=
  match o.mx domain with
  | Except.ok records =>
    if !records.isEmpty then true
    else isOkNonempty (o.aRec domain) || isOkNonempty (o.aaaaRec domain)
  | Except.error _ => isOkNonempty (o.aRec domain) || isOkNonempty (o.aaaaRec domain)

/-- Job status enumeration (src/job_queue.rs lines 16-22). -/
inductive JobStatus where
  | Pending
  | Processing
  | Completed
  | Failed
  deriving DecidableEq

/-- The bulk validation job record (src/job_queue.rs lines 7-14). -/
structure BulkValidationJob where
  id : String
  emails : List (List Char)
  check_role_based : Bool
  status : JobStatus
  created_at : Int
  deriving DecidableEq

/-- Model of `JobQueue::get_job_status` (src/job_queue.rs lines 61-69): point
read of the `job:<id>` record; an expired, never-written or malformed record
reads as `none`. The store maps job ids to well-formed records (the JSON
round-trip of the source is the identity on records it wrote). -/
def get_job_status (store : String → Option BulkValidationJob) (job_id : String) :
    Option BulkValidationJob :=
  store job_id

/-- Model of `JobQueue::update_job_status` (src/job_queue.rs lines 71-85):
read-modify-write of the per-job record, rewriting it with only the status
changed; a missing (expired or never-written) record means no write, and the
call still returns `Ok(())`. Transport to the store — the only `Err` source in
the function — is modelled as available, so the result is always `Except.ok`
of the new store. -/
def update_job_status (store : String → Option BulkValidationJob)
    (job_id : String) (status : JobStatus) :
    Except Unit (String → Option BulkValidationJob) :=
  match store job_id with
  | some job =>
    Except.ok (fun k => if k = job_id then some { job with status := status } else store k)
  | none => Except.ok store

/-- Model of `ValidationWorker::process_bulk_validation` (src/worker.rs lines
34-58): fan the pipeline out over the job's emails (the source awaits them
concurrently against a shared cache; each task is modelled against the
pre-call cache snapshot, which does not affect the per-email responses),
discard the results, then mark the job `Completed` unconditionally (errors of
that update are ignored by the source). -/
def process_bulk_validation (alnum : Char → Bool) (ipLit : List Char → Bool)
    (o : Oracle) (st : RedisState)
    (store : String → Option BulkValidationJob) (job : BulkValidationJob) :
    List EmailValidationResponse × (String → Option BulkValidationJob) :=
  let results := job.emails.map
    (fun e => (validate_single_email alnum ipLit o st e job.check_role_based).1)
  let store2 :=
    match update_job_status store job.id JobStatus.Completed with
    | Except.ok s => s
    | Except.error _ => store
  (results, store2)

/-- Response of the bulk validation endpoint (src/routes/email.rs lines
40-45 and 403-407): either the queued acknowledgement with the job id, or the
inline per-email results with the two counts. -/
inductive BulkResponse where
  | queued (job_id : String)
  | inlineResults (results : List (List Char × EmailValidationResponse))
      (valid_count invalid_count : Nat)
  deriving DecidableEq

/-- The inline branch of `validate_emails_bulk` (src/routes/email.rs lines
415-449): validate every email (concurrent fan-out in the source, each task
modelled against the pre-call cache snapshot), pair each with its input, and
count valid and invalid results by a fold mirroring the tally loop. -/
def inlineBulk (alnum : Char → Bool) (ipLit : List Char → Bool)
    (o : Oracle) (st : RedisState) (emails : List (List Char))
    (check_role_based : Bool) : BulkResponse :=
  let results := emails.map
    (fun e => (e, (validate_single_email alnum ipLit o st e check_role_based).1))
  let counts := results.foldl
    (fun acc r => if r.2.is_valid then (acc.1 + 1, acc.2) else (acc.1, acc.2 + 1))
    (0, 0)
  BulkResponse.inlineResults results counts.1 counts.2

/-- Model of `validate_emails_bulk` (src/routes/email.rs lines 390-450): with
more than 10 emails a successful enqueue returns the queued acknowledgement,
while an enqueue failure falls back to inline processing; with 10 or fewer
emails processing is inline. The enqueue outcome (fresh job id or transport
error) is the oracle `enq`. -/
def validate_emails_bulk (alnum : Char → Bool) (ipLit : List Char → Bool)
    (o : Oracle) (st : RedisState) (enq : Except Unit String)
    (emails : List (List Char)) (check_role_based : Bool) : BulkResponse :=
  if 10 < emails.length then
    match enq with
    | Except.ok job_id => BulkResponse.queued job_id
    | Except.error _ => inlineBulk alnum ipLit o st emails check_role_based
  else
    inlineBulk alnum ipLit o st emails check_role_based

/-- Concrete collaborator fixture: DNS resolves, neither directory lookup
matches, no failures. -/
def oracleAllOk : Oracle :=
  ⟨fun _ => true, fun _ => Except.ok false, fun _ => Except.ok false⟩

/-- Concrete collaborator fixture: DNS resolves and the role-based lookup
matches. -/
def oracleRoleHit : Oracle :=
  ⟨fun _ => true, fun _ => Except.ok true, fun _ => Except.ok false⟩

/-- Concrete fixture: both Redis namespaces empty. -/
def emptyRedis : RedisState := ⟨fun _ => none, fun _ => none⟩

/-- Concrete fixture: a pending one-email job. -/
def jobFixture : BulkValidationJob :=
  ⟨"j1", [("a@b.c".toList)], false, JobStatus.Pending, 0⟩

/-- Concrete fixture: a job store holding exactly `jobFixture`. -/
def storeFixture : String → Option BulkValidationJob :=
  fun k => if k = "j1" then some jobFixture else none

/-! Supporting lemmas about the `@`-finding scan and the split model. -/

/-- Once the scan is inside a quoted string, the local part it eventually
returns is nonempty: the unquoted `@` can only be found after at least the
closing quote. -/
theorem findAtSplit_inQuotes_ne_nil (cs : List Char) (e : Bool) (l d : List Char)
    (h : findAtSplit cs true e = some (l, d)) : l ≠ [] := by
  cases cs with
  | nil => simp [findAtSplit] at h
  | cons c cs =>
    unfold findAtSplit at h
    split at h
    · obtain ⟨p, _, hpe⟩ := Option.map_eq_some'.mp h
      cases hpe
      simp
    · split at h
      · obtain ⟨p, _, hpe⟩ := Option.map_eq_some'.mp h
        cases hpe
        simp
      · split at h
        · next hc => simp at hc
        · obtain ⟨p, _, hpe⟩ := Option.map_eq_some'.mp h
          cases hpe
          simp

/-- Started from the unquoted, unescaped state, the scan never returns the
one-character local part consisting of a single double quote: that quote
opens a quoted string, so the split `@` lies beyond its closing quote. -/
theorem findAtSplit_local_ne_single_quote (cs : List Char) (l d : List Char)
    (h : findAtSplit cs false false = some (l, d)) : l ≠ ['"'] := by
  cases cs with
  | nil => simp [findAtSplit] at h
  | cons c cs =>
    unfold findAtSplit at h
    split at h
    · obtain ⟨⟨l', d'⟩, hp, hpe⟩ := Option.map_eq_some'.mp h
      cases hpe
      have := findAtSplit_inQuotes_ne_nil cs false l' d' hp
      simp [this]
    · next hc1 =>
      split at h
      · next hc2 => simp at hc2
      · split at h
        · simp only [Option.some.injEq, Prod.mk.injEq] at h
          obtain ⟨h1, _⟩ := h
          rw [← h1]
          simp
        · obtain ⟨⟨l', d'⟩, _, hpe⟩ := Option.map_eq_some'.mp h
          cases hpe
          have hcq : c ≠ '"' := by
            intro hceq
            apply hc1
            simp [hceq]
          simp [hcq]

/-- The scan splits the input at an `@`: a successful result decomposes the
scanned string as local part, `@`, domain part. -/
theorem findAtSplit_append (cs : List Char) (q e : Bool) (l d : List Char)
    (h : findAtSplit cs q e = some (l, d)) : cs = l ++ '@' :: d := by
  induction cs generalizing q e l d with
  | nil => simp [findAtSplit] at h
  | cons c cs ih =>
    unfold findAtSplit at h
    split at h
    · obtain ⟨⟨l', d'⟩, hp, hpe⟩ := Option.map_eq_some'.mp h
      cases hpe
      simpa using ih _ _ _ _ hp
    · split at h
      · obtain ⟨⟨l', d'⟩, hp, hpe⟩ := Option.map_eq_some'.mp h
        cases hpe
        simpa using ih _ _ _ _ hp
      · split at h
        · next hc =>
          cases h
          simp only [Bool.and_eq_true, beq_iff_eq] at hc
          simp [hc.1]
        · obtain ⟨⟨l', d'⟩, hp, hpe⟩ := Option.map_eq_some'.mp h
          cases hpe
          simpa using ih _ _ _ _ hp

/-- The split model never returns an empty list of pieces (Rust's
`str::split` always yields at least one piece). -/
theorem rsSplit_ne_nil (sep : Char) (l : List Char) : rsSplit sep l ≠ [] := by
  cases l with
  | nil => simp [rsSplit]
  | cons c cs =>
    unfold rsSplit
    split
    · simp
    · rcases h : rsSplit sep cs with _ | ⟨p, ps⟩ <;> simp [h]

/-- Splitting a string that contains a literal `@` on `@` yields at least two
pieces. -/
theorem rsSplit_at_append_length (l d : List Char) :
    2 ≤ (rsSplit '@' (l ++ '@' :: d)).length := by
  induction l with
  | nil =>
    have hne := rsSplit_ne_nil '@' d
    rcases h : rsSplit '@' d with _ | ⟨p, ps⟩
    · exact absurd h hne
    · simp [rsSplit, h]
  | cons c l ih =>
    simp only [List.cons_append]
    unfold rsSplit
    split
    · have h1 : 1 ≤ (rsSplit '@' (l ++ '@' :: d)).length :=
        Nat.one_le_iff_ne_zero.mpr (by
          intro h0
          exact rsSplit_ne_nil '@' (l ++ '@' :: d) (List.length_eq_zero.mp h0))
      simpa using h1
    · rcases h : rsSplit '@' (l ++ '@' :: d) with _ | ⟨p, ps⟩
      · exact absurd h (rsSplit_ne_nil _ _)
      · rw [h] at ih
        simpa using ih

/-- A local part that would panic the quoted-string slice is exactly the
single double quote. -/
theorem is_valid_local_part_none (alnum : Char → Bool) (lp : List Char)
    (h : is_valid_local_part alnum lp = none) : lp = ['"'] := by
  unfold is_valid_local_part at h
  split at h
  · next hq =>
    unfold is_valid_quoted_string at h
    split at h
    · simp at h
    · next hlen =>
      simp only [Bool.and_eq_true, beq_iff_eq] at hq
      have h1 : lp ≠ [] := by
        intro h0
        rw [h0] at hq
        simp at hq
      have h2 : lp.length = 1 := by
        have := List.length_pos.mpr h1
        omega
      obtain ⟨a, ha⟩ := List.length_eq_one.mp h2
      rw [ha] at hq
      simp only [List.head?_cons, Option.some.injEq] at hq
      rw [ha, hq.1]
  · simp at h

/-- The empty domain part never validates. -/
theorem is_valid_domain_part_nil (alnum : Char → Bool) (ipLit : List Char → Bool) :
    is_valid_domain_part alnum ipLit [] = false := by
  simp [is_valid_domain_part, is_valid_domain_name, is_valid_dot_atom, rsSplit]

/-- The panic branch of `is_valid_emailOpt` is unreachable: the scan can only
return a quote-initial local part that also contains the closing quote. -/
theorem is_valid_emailOpt_eq_some (alnum : Char → Bool) (ipLit : List Char → Bool)
    (email : List Char) :
    is_valid_emailOpt alnum ipLit email
      = some (is_valid_email alnum ipLit email) := by
  suffices hs : ∃ b, is_valid_emailOpt alnum ipLit email = some b by
    obtain ⟨b, hb⟩ := hs
    rw [hb, is_valid_email, hb]
    rfl
  unfold is_valid_emailOpt
  split
  · exact ⟨false, rfl⟩
  · split
    · exact ⟨false, rfl⟩
    · next lp dp heq =>
      split
      · exact ⟨false, rfl⟩
      · split
        · next hnone =>
          exact absurd (is_valid_local_part_none alnum lp hnone)
            (findAtSplit_local_ne_single_quote email lp dp heq)
        · split
          · exact ⟨false, rfl⟩
          · exact ⟨is_valid_domain_part alnum ipLit dp, rfl⟩

/-- Claim C4: `is_valid_email` is total — for every input, including the empty
string, arbitrary Unicode, and local parts made of a single or unbalanced
double quote, the validator reaches a boolean: the `none` branch that models
the out-of-bounds quoted-string slice is unreachable, so every slice taken
inside the quoted-string check is within bounds whenever that check is
reached, and the boolean wrapper `is_valid_email` agrees with the
panic-explicit `is_valid_emailOpt` everywhere. -/
theorem is_valid_email_total (alnum : Char → Bool) (ipLit : List Char → Bool)
    (email : List Char) :
    ∃ b, is_valid_emailOpt alnum ipLit email = some b
      ∧ is_valid_email alnum ipLit email = b :=
  ⟨is_valid_email alnum ipLit email, is_valid_emailOpt_eq_some alnum ipLit email, rfl⟩

/-- Claim C8: every string longer than 254 bytes is rejected, and every string
in which the quote-and-escape-tracking scan finds no unquoted `@` is
rejected. -/
theorem is_valid_email_reject_long_or_no_at (alnum : Char → Bool)
    (ipLit : List Char → Bool) (email : List Char)
    (h : 254 < byteLen email ∨ findAtSplit email false false = none) :
    is_valid_email alnum ipLit email = false := by
  unfold is_valid_email is_valid_emailOpt
  rcases h with h | h
  · simp [h]
  · split
    · simp
    · rw [h]
      simp

/-- Witness for claim C8 at two concrete inputs: a 255-byte address and an
address without any `@`. -/
theorem is_valid_email_reject_long_or_no_at_witness :
    (254 < byteLen (List.replicate 255 'a')
       ∧ is_valid_email Char.isAlphanum (fun _ => false) (List.replicate 255 'a') = false)
    ∧ (findAtSplit ("plainaddress".toList) false false = none
       ∧ is_valid_email Char.isAlphanum (fun _ => false) ("plainaddress".toList) = false) :=
  ⟨⟨by decide,
    is_valid_email_reject_long_or_no_at Char.isAlphanum (fun _ => false)
      (List.replicate 255 'a') (Or.inl (by decide))⟩,
   ⟨by decide,
    is_valid_email_reject_long_or_no_at Char.isAlphanum (fun _ => false)
      ("plainaddress".toList) (Or.inr (by decide))⟩⟩

/-- Claim C10: an accepted email contains an `@`; the scan's domain part (the
text after the first unquoted `@`) is nonempty; and splitting the email on `@`
yields at least two pieces, so the pipeline's `parts[1]` domain extraction
after a passing syntax check is in bounds and cannot panic. -/
theorem valid_email_domain_extraction (alnum : Char → Bool)
    (ipLit : List Char → Bool) (email : List Char)
    (h : is_valid_email alnum ipLit email = true) :
    ('@' ∈ email)
    ∧ (∃ lp dp, findAtSplit email false false = some (lp, dp) ∧ dp ≠ [])
    ∧ 2 ≤ (rsSplit '@' email).length
    ∧ ((rsSplit '@' email).get? 1).isSome := by
  have hOpt : is_valid_emailOpt alnum ipLit email = some true := by
    rw [is_valid_emailOpt_eq_some alnum ipLit email, h]
  unfold is_valid_emailOpt at hOpt
  split at hOpt
  · simp at hOpt
  · split at hOpt
    · simp at hOpt
    · next lp dp hfs =>
      split at hOpt
      · simp at hOpt
      · split at hOpt
        · simp at hOpt
        · split at hOpt
          · simp at hOpt
          · simp only [Option.some.injEq] at hOpt
            have hdp : dp ≠ [] := by
              intro h0
              rw [h0] at hOpt
              rw [is_valid_domain_part_nil] at hOpt
              simp at hOpt
            have happ := findAtSplit_append email false false lp dp hfs
            refine ⟨?_, ⟨lp, dp, hfs, hdp⟩, ?_, ?_⟩
            · rw [happ]
              simp
            · rw [happ]
              exact rsSplit_at_append_length lp dp
            · have hlen : 2 ≤ (rsSplit '@' email).length := by
                rw [happ]
                exact rsSplit_at_append_length lp dp
              rw [Option.isSome_iff_ne_none]
              intro h0
              have := List.get?_eq_none.mp h0
              omega

/-- Witness for claim C10 at a concrete accepted address. -/
theorem valid_email_domain_extraction_witness :
    is_valid_email Char.isAlphanum (fun _ => false) ("user@example.com".toList) = true
    ∧ (('@' ∈ ("user@example.com".toList))
       ∧ (∃ lp dp, findAtSplit ("user@example.com".toList) false false = some (lp, dp) ∧ dp ≠ [])
       ∧ 2 ≤ (rsSplit '@' ("user@example.com".toList)).length
       ∧ ((rsSplit '@' ("user@example.com".toList)).get? 1).isSome) :=
  ⟨by decide,
   valid_email_domain_extraction Char.isAlphanum (fun _ => false)
     ("user@example.com".toList) (by decide)⟩

/-! Lemmas about the pipeline stages. -/

/-- A DNS-cache hit makes the DNS stage a pure read: same state, no resolver
call. -/
theorem dnsStage_hit (o : Oracle) (st : RedisState) (email domain : List Char)
    (v : Bool) (h : st.dnsCache domain = some v) :
    dnsStage o st email domain = (v, st, []) := by
  simp [dnsStage, h]

/-- After the DNS stage, the verdict it returned is cached for the queried
domain. -/
theorem dnsStage_caches (o : Oracle) (st : RedisState) (email domain : List Char) :
    (dnsStage o st email domain).2.1.dnsCache domain
      = some (dnsStage o st email domain).1 := by
  unfold dnsStage
  rcases h : st.dnsCache domain with _ | v
  · simp
  · simp [h]

/-- Running the DNS stage again on the state it produced is a cache hit with
the same verdict and no resolver call. -/
theorem dnsStage_idem (o : Oracle) (st : RedisState) (email domain : List Char) :
    dnsStage o (dnsStage o st email domain).2.1 email domain
      = ((dnsStage o st email domain).1, (dnsStage o st email domain).2.1, []) :=
  dnsStage_hit o _ email domain _ (dnsStage_caches o st email domain)

/-- The DNS stage never touches the whole-response namespace. -/
theorem dnsStage_respCache (o : Oracle) (st : RedisState) (email domain : List Char) :
    (dnsStage o st email domain).2.1.respCache = st.respCache := by
  unfold dnsStage
  rcases h : st.dnsCache domain with _ | v <;> simp

/-- The DNS stage performs no role-based lookup. -/
theorem dnsStage_no_role (o : Oracle) (st : RedisState) (email domain : List Char) :
    ((dnsStage o st email domain).2.2).filter isRoleLookupEvent = [] := by
  unfold dnsStage
  rcases h : st.dnsCache domain with _ | v <;> simp [isRoleLookupEvent]

/-- The role-based and disposable stages never invoke the DNS resolver. -/
theorem roleAndDisposableStage_no_dns (o : Oracle) (email : List Char) (crb : Bool) :
    ((roleAndDisposableStage o email crb).2).filter isDnsResolveEvent = [] := by
  unfold roleAndDisposableStage
  split
  · rcases h : o.roleBased email with e | b
    · simp [h, isDnsResolveEvent]
    · cases b <;> simp [h, isDnsResolveEvent]
  · simp [isDnsResolveEvent]

/-- With the role-based check disabled the tail stages perform no role-based
lookup. -/
theorem roleAndDisposableStage_false_no_role (o : Oracle) (email : List Char) :
    ((roleAndDisposableStage o email false).2).filter isRoleLookupEvent = [] := by
  simp [roleAndDisposableStage, isRoleLookupEvent]

/-- Claim C1: the single-email pipeline trims its input and runs the checks in
the fixed order syntax, DNS, role-based (only when requested), disposable,
terminating on the first failure: a syntax failure yields the invalid-syntax
outcome; otherwise a false DNS verdict yields the invalid-domain outcome;
otherwise, with the flag set, a role-based hit yields the role-based outcome
and a lookup error the database-error outcome; otherwise a disposable hit
yields the disposable outcome, a miss the valid outcome, and a lookup error
the database-error outcome; and with the flag unset the role-based
collaborator is never consulted. -/
theorem validate_single_email_fixed_order (alnum : Char → Bool)
    (ipLit : List Char → Bool) (o : Oracle) (st : RedisState)
    (email0 : List Char) (crb : Bool) :
    (is_valid_email alnum ipLit (rustTrim email0) = false →
      (validate_single_email alnum ipLit o st email0 crb).1 = syntaxErrorResp)
    ∧ (is_valid_email alnum ipLit (rustTrim email0) = true →
      (dnsStage o st (rustTrim email0)
          (((rsSplit '@' (rustTrim email0))[1]?).getD [])).1 = false →
      (validate_single_email alnum ipLit o st email0 crb).1 = domainErrorResp)
    ∧ (is_valid_email alnum ipLit (rustTrim email0) = true →
      (dnsStage o st (rustTrim email0)
          (((rsSplit '@' (rustTrim email0))[1]?).getD [])).1 = true →
      crb = true → o.roleBased (rustTrim email0) = Except.ok true →
      (validate_single_email alnum ipLit o st email0 crb).1 = roleErrorResp)
    ∧ (is_valid_email alnum ipLit (rustTrim email0) = true →
      (dnsStage o st (rustTrim email0)
          (((rsSplit '@' (rustTrim email0))[1]?).getD [])).1 = true →
      crb = true → ∀ m, o.roleBased (rustTrim email0) = Except.error m →
      (validate_single_email alnum ipLit o st email0 crb).1 = dbErrorResp m)
    ∧ (is_valid_email alnum ipLit (rustTrim email0) = true →
      (dnsStage o st (rustTrim email0)
          (((rsSplit '@' (rustTrim email0))[1]?).getD [])).1 = true →
      (crb = false ∨ o.roleBased (rustTrim email0) = Except.ok false) →
      o.disposable (rustTrim email0) = Except.ok true →
      (validate_single_email alnum ipLit o st email0 crb).1 = disposableErrorResp)
    ∧ (is_valid_email alnum ipLit (rustTrim email0) = true →
      (dnsStage o st (rustTrim email0)
          (((rsSplit '@' (rustTrim email0))[1]?).getD [])).1 = true →
      (crb = false ∨ o.roleBased (rustTrim email0) = Except.ok false) →
      o.disposable (rustTrim email0) = Except.ok false →
      (validate_single_email alnum ipLit o st email0 crb).1 = validResp)
    ∧ (is_valid_email alnum ipLit (rustTrim email0) = true →
      (dnsStage o st (rustTrim email0)
          (((rsSplit '@' (rustTrim email0))[1]?).getD [])).1 = true →
      (crb = false ∨ o.roleBased (rustTrim email0) = Except.ok false) →
      ∀ m, o.disposable (rustTrim email0) = Except.error m →
      (validate_single_email alnum ipLit o st email0 crb).1 = dbErrorResp m)
    ∧ (crb = false →
      ((validate_single_email alnum ipLit o st email0 crb).2.2).filter
        isRoleLookupEvent = []) := by
  refine ⟨?_, ?_, ?_, ?_, ?_, ?_, ?_, ?_⟩
  · intro h1
    simp [validate_single_email, h1]
  · intro h1 h2
    simp [validate_single_email, h1, h2]
  · intro h1 h2 h3 h4
    simp [validate_single_email, roleAndDisposableStage, h1, h2, h3, h4]
  · intro h1 h2 h3 m h4
    simp [validate_single_email, roleAndDisposableStage, h1, h2, h3, h4]
  · intro h1 h2 h3 h4
    rcases h3 with h3 | h3
    · simp [validate_single_email, roleAndDisposableStage, disposableCheck,
        h1, h2, h3, h4]
    · simp [validate_single_email, roleAndDisposableStage, disposableCheck,
        h1, h2, h3, h4]
      cases crb <;> simp
  · intro h1 h2 h3 h4
    rcases h3 with h3 | h3
    · simp [validate_single_email, roleAndDisposableStage, disposableCheck,
        h1, h2, h3, h4]
    · simp [validate_single_email, roleAndDisposableStage, disposableCheck,
        h1, h2, h3, h4]
      cases crb <;> simp
  · intro h1 h2 h3 m h4
    rcases h3 with h3 | h3
    · simp [validate_single_email, roleAndDisposableStage, disposableCheck,
        h1, h2, h3, h4]
    · simp [validate_single_email, roleAndDisposableStage, disposableCheck,
        h1, h2, h3, h4]
      cases crb <;> simp
  · intro h1
    simp only [validate_single_email]
    split
    · simp
    · split
      · simp [dnsStage_no_role]
      · simp [h1, List.filter_append, dnsStage_no_role,
          roleAndDisposableStage_false_no_role]

/-- Witness for claim C1: the role-based scenario of the spec — the pipeline
on `admin@example.com` with the flag set and a matching role-alias store
yields the role-based rejection. -/
theorem validate_single_email_fixed_order_witness :
    (validate_single_email Char.isAlphanum (fun _ => false) oracleRoleHit emptyRedis
        ("admin@example.com".toList) true).1 = roleErrorResp :=
  (validate_single_email_fixed_order Char.isAlphanum (fun _ => false) oracleRoleHit
      emptyRedis ("admin@example.com".toList) true).2.2.1
    (by decide) (by decide) rfl rfl

/-- Claim C5: re-running the pipeline on the same input and flag, with the
same collaborators, against the state left by the first run, returns the
identical outcome, and the second run performs no DNS resolver invocation
(the verdict is served from the DNS cache the first run populated). -/
theorem pipeline_idempotent_no_second_dns (alnum : Char → Bool)
    (ipLit : List Char → Bool) (o : Oracle) (st : RedisState)
    (email0 : List Char) (crb : Bool) :
    (validate_single_email alnum ipLit o
        (validate_single_email alnum ipLit o st email0 crb).2.1 email0 crb).1
      = (validate_single_email alnum ipLit o st email0 crb).1
    ∧ ((validate_single_email alnum ipLit o
        (validate_single_email alnum ipLit o st email0 crb).2.1 email0 crb).2.2).filter
        isDnsResolveEvent = [] := by
  cases hsyn : is_valid_email alnum ipLit (rustTrim email0)
  · constructor <;> simp [validate_single_email, hsyn]
  · have hidem := dnsStage_idem o st (rustTrim email0)
      (((rsSplit '@' (rustTrim email0))[1]?).getD [])
    cases hv : (dnsStage o st (rustTrim email0)
        (((rsSplit '@' (rustTrim email0))[1]?).getD [])).1
    · constructor <;>
        simp [validate_single_email, hsyn, hv, hidem, isDnsResolveEvent]
    · constructor <;>
        simp [validate_single_email, hsyn, hv, hidem, List.filter_append,
          roleAndDisposableStage_no_dns, isDnsResolveEvent]

/-- Counterexample to claim C2: the REST pipeline `validate_single_email`
returns the authoritative valid outcome for `user@example.com` while leaving
the whole-response cache untouched — no authoritative outcome is written to a
whole-response cache by this pipeline (its only cache writes are DNS
verdicts). -/
theorem rest_pipeline_no_response_cache_write :
    (validate_single_email Char.isAlphanum (fun _ => false) oracleAllOk emptyRedis
        ("user@example.com".toList) false).1 = validResp
    ∧ (validate_single_email Char.isAlphanum (fun _ => false) oracleAllOk emptyRedis
        ("user@example.com".toList) false).2.1.respCache
        ("user@example.com".toList) = none := by
  constructor
  · decide
  · decide

/-- Amended claim C2: the whole-response cache is maintained by the GraphQL
pipeline only. There, any cache modification writes exactly the returned
outcome under the trimmed email, and only when that outcome is authoritative
(valid, or an error other than `DATABASE_ERROR`); whenever the returned
outcome is authoritative it is in the cache on return; and the REST pipeline
never modifies the whole-response namespace at all. -/
theorem response_cache_policy (alnum : Char → Bool) (ipLit : List Char → Bool)
    (o : Oracle) (st : RedisState) (email0 : List Char) (crb : Option Bool)
    (crb2 : Bool) :
    ((validate_single_email alnum ipLit o st email0 crb2).2.1.respCache
      = st.respCache)
    ∧ (∀ k, (gql_validate_email alnum ipLit o st email0 crb).2.respCache k
          ≠ st.respCache k →
        k = rustTrim email0
        ∧ (gql_validate_email alnum ipLit o st email0 crb).2.respCache k
            = some (gql_validate_email alnum ipLit o st email0 crb).1
        ∧ shouldCacheOutcome (gql_validate_email alnum ipLit o st email0 crb).1
            = true)
    ∧ (shouldCacheOutcome (gql_validate_email alnum ipLit o st email0 crb).1 = true →
        (gql_validate_email alnum ipLit o st email0 crb).2.respCache (rustTrim email0)
          = some (gql_validate_email alnum ipLit o st email0 crb).1) := by
  refine ⟨?_, ?_⟩
  · simp only [validate_single_email]
    split
    · rfl
    · split
      · exact dnsStage_respCache o st _ _
      · exact dnsStage_respCache o st _ _
  · rcases hrc : st.respCache (rustTrim email0) with _ | cached
    · cases hsc : shouldCacheOutcome
        (perform_validation alnum ipLit o (rustTrim email0) (crb.getD false))
      · constructor
        · intro k hk
          exfalso
          apply hk
          simp [gql_validate_email, hrc, hsc]
        · intro h
          rw [show (gql_validate_email alnum ipLit o st email0 crb).1
              = perform_validation alnum ipLit o (rustTrim email0) (crb.getD false) by
            simp [gql_validate_email, hrc, hsc]] at h
          rw [hsc] at h
          simp at h
      · constructor
        · intro k hk
          by_cases hke : k = rustTrim email0
          · subst hke
            refine ⟨rfl, ?_, ?_⟩
            · simp [gql_validate_email, hrc, hsc]
            · rw [show (gql_validate_email alnum ipLit o st email0 crb).1
                  = perform_validation alnum ipLit o (rustTrim email0) (crb.getD false) by
                simp [gql_validate_email, hrc, hsc]]
              exact hsc
          · exfalso
            apply hk
            simp [gql_validate_email, hrc, hsc, hke]
        · intro _
          simp [gql_validate_email, hrc, hsc]
    · constructor
      · intro k hk
        exfalso
        apply hk
        simp [gql_validate_email, hrc]
      · intro _
        simp [gql_validate_email, hrc]

/-- Witness for the amended claim C2: a concrete valid outcome is found in the
whole-response cache after the GraphQL pipeline returns it. -/
theorem response_cache_policy_witness :
    (gql_validate_email Char.isAlphanum (fun _ => false) oracleAllOk emptyRedis
        ("user@example.com".toList) none).2.respCache
        (rustTrim ("user@example.com".toList))
      = some (gql_validate_email Char.isAlphanum (fun _ => false) oracleAllOk emptyRedis
        ("user@example.com".toList) none).1 :=
  (response_cache_policy Char.isAlphanum (fun _ => false) oracleAllOk emptyRedis
      ("user@example.com".toList) none false).2.2 (by decide)

/-- Counterexample to claim C3: when the MX lookup succeeds with an empty
record set while the A lookup would return a record, the claimed verdict is
true but the code returns false — the fallback to A and AAAA runs only when
the MX lookup errors, not when it returns empty. -/
theorem mx_empty_no_fallback :
    claimedDnsVerdict
      ⟨fun _ => Except.ok [], fun _ => Except.ok [()], fun _ => Except.ok []⟩
      ("example.com".toList) = true
    ∧ check_mx_or_a_records
      ⟨fun _ => Except.ok [], fun _ => Except.ok [()], fun _ => Except.ok []⟩
      ("example.com".toList) = Except.ok false
    ∧ validate_email_dns
      ⟨fun _ => Except.ok [], fun _ => Except.ok [()], fun _ => Except.ok []⟩
      true ("user@example.com".toList) = false :=
  ⟨rfl, rfl, rfl⟩

/-- Amended claim C3: the verdict is true if the MX lookup returns at least
one record; an MX lookup that succeeds with an empty record set yields the
verdict false with no fallback; only an MX lookup error falls back to the A
and AAAA lookups, where an A or AAAA error propagates as an error (collapsed
to false by `validate_email_dns`) and otherwise the verdict is true exactly
when at least one of the two returns a record. -/
theorem check_mx_or_a_records_characterisation (o : DnsOracle) (domain : List Char) :
    (check_mx_or_a_records o domain = Except.ok true ↔
      (∃ recs, o.mx domain = Except.ok recs ∧ recs ≠ [])
      ∨ ((∃ e, o.mx domain = Except.error e)
         ∧ ∃ ra rq, o.aRec domain = Except.ok ra ∧ o.aaaaRec domain = Except.ok rq
             ∧ (ra ≠ [] ∨ rq ≠ [])))
    ∧ (∀ recs, o.mx domain = Except.ok recs → recs = [] →
        check_mx_or_a_records o domain = Except.ok false) := by
  constructor
  · unfold check_mx_or_a_records
    rcases hmx : o.mx domain with e | recs
    · rcases ha : o.aRec domain with ea | ra
      · simp [hmx, ha]
      · rcases hq : o.aaaaRec domain with eq | rq
        · simp [hmx, ha, hq]
        · simp [hmx, ha, hq]
    · simp [hmx]
  · intro recs hmx hnil
    unfold check_mx_or_a_records
    rw [hmx, hnil]
    rfl

/-- Witness for the amended claim C3: an MX success with an empty record set
gives the verdict false. -/
theorem check_mx_or_a_records_characterisation_witness :
    check_mx_or_a_records
      ⟨fun _ => Except.ok [], fun _ => Except.error ("nx"), fun _ => Except.ok []⟩
      ("example.org".toList) = Except.ok false :=
  (check_mx_or_a_records_characterisation
      ⟨fun _ => Except.ok [], fun _ => Except.error ("nx"), fun _ => Except.ok []⟩
      ("example.org".toList)).2 [] rfl rfl

/-- The two counters of the bulk tally fold always sum to the starting sum
plus the number of results. -/
theorem bulkCounts_sum (l : List ((List Char) × EmailValidationResponse)) (a b : Nat) :
    ((l.foldl (fun acc r => if r.2.is_valid then (acc.1 + 1, acc.2)
        else (acc.1, acc.2 + 1)) (a, b)).1
      + (l.foldl (fun acc r => if r.2.is_valid then (acc.1 + 1, acc.2)
        else (acc.1, acc.2 + 1)) (a, b)).2) = a + b + l.length := by
  induction l generalizing a b with
  | nil => simp
  | cons x l ih =>
    cases hx : x.2.is_valid
    · simp only [List.foldl_cons, hx, Bool.false_eq_true, if_false, List.length_cons]
      rw [ih]
      omega
    · simp only [List.foldl_cons, hx, if_true, List.length_cons]
      rw [ih]
      omega

/-- Counterexample to claim C6: a bulk request of 11 emails whose enqueue
fails is not answered with the queued acknowledgement — the handler falls
back to inline processing and returns per-email results. -/
theorem bulk_queue_fallback_counterexample :
    validate_emails_bulk Char.isAlphanum (fun _ => false) oracleAllOk emptyRedis
      (Except.error ()) (List.replicate 11 ("bad".toList)) false
    = BulkResponse.inlineResults
        (List.replicate 11 (("bad".toList), syntaxErrorResp)) 0 11 := by
  decide

/-- Amended claim C6: with more than 10 emails and a successful enqueue the
response is the queued acknowledgement carrying the job id; with 10 or fewer
emails — or with more than 10 and a failing enqueue — the emails are
validated inline and the response carries one result per submitted email, in
order, with the valid and invalid counts summing to the number of emails. -/
theorem validate_emails_bulk_dispatch (alnum : Char → Bool) (ipLit : List Char → Bool)
    (o : Oracle) (st : RedisState) (enq : Except Unit String)
    (emails : List (List Char)) (crb : Bool) :
    (∀ job_id, 10 < emails.length → enq = Except.ok job_id →
      validate_emails_bulk alnum ipLit o st enq emails crb
        = BulkResponse.queued job_id)
    ∧ ((emails.length ≤ 10 ∨ enq = Except.error ()) →
      ∃ results vc ic,
        validate_emails_bulk alnum ipLit o st enq emails crb
          = BulkResponse.inlineResults results vc ic
        ∧ results.map Prod.fst = emails
        ∧ results.length = emails.length
        ∧ vc + ic = emails.length) := by
  constructor
  · intro job_id hlen henq
    simp [validate_emails_bulk, hlen, henq]
  · intro h
    have hinl : ∃ results vc ic,
        inlineBulk alnum ipLit o st emails crb
          = BulkResponse.inlineResults results vc ic
        ∧ results.map Prod.fst = emails
        ∧ results.length = emails.length
        ∧ vc + ic = emails.length := by
      refine ⟨_, _, _, rfl, ?_, ?_, ?_⟩
      · have hcomp : (Prod.fst ∘ fun e : List Char =>
            (e, (validate_single_email alnum ipLit o st e crb).1)) = fun e => e := rfl
        simp [List.map_map, hcomp]
      · simp
      · simpa using bulkCounts_sum (emails.map (fun e =>
          (e, (validate_single_email alnum ipLit o st e crb).1))) 0 0
    rcases hinl with ⟨r, vc, ic, he, h1, h2, h3⟩
    rcases h with h | h
    · refine ⟨r, vc, ic, ?_, h1, h2, h3⟩
      rw [← he]
      simp [validate_emails_bulk, Nat.not_lt.mpr h]
    · refine ⟨r, vc, ic, ?_, h1, h2, h3⟩
      rw [← he]
      by_cases hl : 10 < emails.length
      · simp [validate_emails_bulk, hl, h]
      · simp [validate_emails_bulk, hl]

/-- Witness for the amended claim C6: 11 emails with a successful enqueue are
acknowledged as queued. -/
theorem validate_emails_bulk_dispatch_witness :
    validate_emails_bulk Char.isAlphanum (fun _ => false) oracleAllOk emptyRedis
      (Except.ok ("job-1")) (List.replicate 11 ("bad".toList)) false
      = BulkResponse.queued ("job-1") :=
  (validate_emails_bulk_dispatch Char.isAlphanum (fun _ => false) oracleAllOk emptyRedis
      (Except.ok ("job-1")) (List.replicate 11 ("bad".toList)) false).1
    ("job-1") (by decide) rfl

/-- Claim C7: when the worker's `process_bulk_validation` returns, the
pipeline has been invoked once per email of the job (the result list is the
pipeline mapped over the job's emails), and — as long as the job record has
not expired — the job's status has been set to `Completed` unconditionally,
so a subsequent `get_job_status` on the job id reports `Completed`. -/
theorem process_bulk_validation_completes (alnum : Char → Bool)
    (ipLit : List Char → Bool) (o : Oracle) (st : RedisState)
    (store : String → Option BulkValidationJob) (job : BulkValidationJob)
    (h : ∃ j0, store job.id = some j0) :
    (process_bulk_validation alnum ipLit o st store job).1
      = job.emails.map
          (fun e => (validate_single_email alnum ipLit o st e job.check_role_based).1)
    ∧ ∃ j, get_job_status (process_bulk_validation alnum ipLit o st store job).2 job.id
        = some j ∧ j.status = JobStatus.Completed := by
  obtain ⟨j0, hj0⟩ := h
  refine ⟨rfl, ⟨{ j0 with status := JobStatus.Completed }, ?_, rfl⟩⟩
  simp [process_bulk_validation, update_job_status, get_job_status, hj0]

/-- Witness for claim C7 at a concrete one-email job present in the store. -/
theorem process_bulk_validation_completes_witness :
    ∃ j, get_job_status
        (process_bulk_validation Char.isAlphanum (fun _ => false) oracleAllOk emptyRedis
          storeFixture jobFixture).2 (jobFixture.id)
      = some j ∧ j.status = JobStatus.Completed :=
  (process_bulk_validation_completes Char.isAlphanum (fun _ => false) oracleAllOk
      emptyRedis storeFixture jobFixture ⟨jobFixture, by decide⟩).2

/-- Claim C9: `update_job_status` is a read-modify-write that, when the
per-job record exists, rewrites it with only the status changed — id, emails,
check_role_based and created_at are preserved, and every other key is left
untouched — and, when the record has expired or never existed, performs no
write and still returns success. -/
theorem update_job_status_frame (store : String → Option BulkValidationJob)
    (job_id : String) (status : JobStatus) :
    (∀ j0, store job_id = some j0 →
      ∃ st2, update_job_status store job_id status = Except.ok st2
        ∧ (∃ j1, st2 job_id = some j1
            ∧ j1.id = j0.id ∧ j1.emails = j0.emails
            ∧ j1.check_role_based = j0.check_role_based
            ∧ j1.created_at = j0.created_at
            ∧ j1.status = status)
        ∧ (∀ k, k ≠ job_id → st2 k = store k))
    ∧ (store job_id = none → update_job_status store job_id status = Except.ok store) := by
  constructor
  · intro j0 hj0
    unfold update_job_status
    rw [hj0]
    refine ⟨_, rfl, ⟨{ j0 with status := status }, ?_, rfl, rfl, rfl, rfl, rfl⟩, ?_⟩
    · simp
    · intro k hk
      simp [hk]
  · intro h
    unfold update_job_status
    rw [h]

/-- Witness for claim C9: both the existing-record and the missing-record
branch at concrete stores. -/
theorem update_job_status_frame_witness :
    (∃ st2, update_job_status storeFixture "j1" JobStatus.Completed = Except.ok st2
      ∧ (∃ j1, st2 "j1" = some j1
          ∧ j1.id = jobFixture.id ∧ j1.emails = jobFixture.emails
          ∧ j1.check_role_based = jobFixture.check_role_based
          ∧ j1.created_at = jobFixture.created_at
          ∧ j1.status = JobStatus.Completed)
      ∧ (∀ k, k ≠ "j1" → st2 k = storeFixture k))
    ∧ update_job_status (fun _ => none) "j1" JobStatus.Completed
        = Except.ok (fun _ => none) :=
  ⟨(update_job_status_frame storeFixture "j1" JobStatus.Completed).1 jobFixture (by decide),
   (update_job_status_frame (fun _ => none) "j1" JobStatus.Completed).2 rfl⟩

end EmailSanitizer
